import Mathlib

/-!
Verification of the Modbus RTU frame codec and channel-addressing layer of
the modbus_mqtt repository (files modbus_mqtt_bridge_json.py,
modbus_mqtt_bridge.py, raw_modbus_test.py).

The Python code is shallowly embedded: bytes are modelled as `Nat` values
below 256, byte strings as `List Nat`, and Python exceptions (`ValueError`,
`IndexError`) as an `Except PyError` result.  Three variants of the codec
exist in the repository; where they differ, each variant gets its own
definition, suffixed `_json` (modbus_mqtt_bridge_json.py), `_cli`
(raw_modbus_test.py) or `_txt` (modbus_mqtt_bridge.py).
-/

namespace ModbusMqtt

/-- One bit step of the Modbus CRC16 inner loop, from `crc16` in
modbus_mqtt_bridge_json.py lines 34-38 (identical in raw_modbus_test.py and
modbus_mqtt_bridge.py): if the LSB is set, shift right and xor with the
polynomial 0xA001, otherwise just shift right. -/
def crc_bit_step (crc : Nat) : Nat :=
  if crc &&& 1 = 1 then (crc >>> 1) ^^^ 0xA001 else crc >>> 1

/-- `n` iterations of the bit step, modelling `for _ in range(8)`. -/
def crc_bits : Nat → Nat → Nat
  | 0, crc => crc
  | n + 1, crc => crc_bits n (crc_bit_step crc)

/-- Processing of one input byte: `crc ^= byte` followed by 8 bit steps
(modbus_mqtt_bridge_json.py lines 33-38). -/
def crc_byte_step (crc byte : Nat) : Nat :=
  crc_bits 8 (crc ^^^ byte)

/-- The internal CRC register after the whole loop of `crc16`: initial
value 0xFFFF, folded over the input bytes. -/
def crcRegister (data : List Nat) : Nat :=
  data.foldl crc_byte_step 0xFFFF

/-- Little-endian byte serialization of a natural number into `n` bytes,
modelling the successful case of Python `int.to_bytes(n, byteorder =
little)`. -/
def to_bytes_le : Nat → Nat → List Nat
  | 0, _ => []
  | n + 1, x => x % 256 :: to_bytes_le n (x / 256)

/-- Python `int.to_bytes` raises `OverflowError` when the integer does not
fit in the requested length; this checked variant models that behaviour. -/
def to_bytes_le_checked (n x : Nat) : Option (List Nat) :=
  if x < 256 ^ n then some (to_bytes_le n x) else none

/-- The `crc16` function of all three source files (e.g.
modbus_mqtt_bridge_json.py lines 30-39): register computed by
`crcRegister`, returned as two little-endian bytes via
`crc.to_bytes(2, byteorder = little)`. -/
def crc16 (data : List Nat) : List Nat :=
  to_bytes_le 2 (crcRegister data)

theorem to_bytes_le_two (x : Nat) : to_bytes_le 2 x = [x % 256, x / 256 % 256] := rfl

theorem crc16_eq_le_bytes (data : List Nat) :
    crc16 data = [crcRegister data % 256, crcRegister data / 256 % 256] := rfl

theorem crc16_length (data : List Nat) : (crc16 data).length = 2 := rfl

theorem crc_bit_step_lt (crc : Nat) (h : crc < 65536) : crc_bit_step crc < 65536 := by
  have h2 : (65536 : Nat) = 2 ^ 16 := by norm_num
  have hs : crc >>> 1 < 65536 := by
    rw [Nat.shiftRight_eq_div_pow]
    omega
  unfold crc_bit_step
  split
  · rw [h2] at hs ⊢
    exact Nat.xor_lt_two_pow hs (by norm_num)
  · exact hs

theorem crc_bits_lt (n crc : Nat) (h : crc < 65536) : crc_bits n crc < 65536 := by
  induction n generalizing crc with
  | zero => exact h
  | succ k ih => exact ih _ (crc_bit_step_lt crc h)

theorem crc_byte_step_lt (crc byte : Nat) (h1 : crc < 65536) (h2 : byte < 256) :
    crc_byte_step crc byte < 65536 := by
  have h2' : (65536 : Nat) = 2 ^ 16 := by norm_num
  apply crc_bits_lt
  rw [h2'] at h1 ⊢
  exact Nat.xor_lt_two_pow h1 (by omega)

theorem foldl_crc_lt (l : List Nat) (init : Nat) (h0 : init < 65536)
    (h : ∀ b ∈ l, b < 256) : l.foldl crc_byte_step init < 65536 := by
  induction l generalizing init with
  | nil => exact h0
  | cons b rest ih =>
    exact ih _ (crc_byte_step_lt init b h0 (h b (by simp)))
      (fun c hc => h c (by simp [hc]))

theorem crcRegister_lt (data : List Nat) (h : ∀ b ∈ data, b < 256) :
    crcRegister data < 65536 :=
  foldl_crc_lt data 0xFFFF (by norm_num) h

/-- Python exceptions raised or hit by the codec code.  `valueErrorChannel`
is the `ValueError` with message `channel must be 1-8`, `valueErrorAction`
the `ValueError` complaining about the action token, and `indexError` the
`IndexError` from an out-of-range subscript such as `resp[4]`. -/
inductive PyError where
  | valueErrorChannel
  | valueErrorAction
  | indexError
deriving DecidableEq

/-- Function code constant `WRITE_REG = 0x06`. -/
def WRITE_REG : Nat := 0x06

/-- Function code constant `READ_REG = 0x03`. -/
def READ_REG : Nat := 0x03

/-- The `build_relay_command` of modbus_mqtt_bridge_json.py lines 47-66:
channel range check first, then the action is mapped to the data bytes,
then the 6-byte body is assembled and the CRC appended. -/
def build_relay_command (device channel : Nat) (action : String) :
    Except PyError (List Nat) :=
  if channel < 1 ∨ 8 < channel then .error .valueErrorChannel
  else
    match (if action = "on" then some (0x01, 0x00)
           else if action = "off" then some (0x02, 0x00)
           else none) with
    | none => .error .valueErrorAction
    | some (data_hi, data_lo) =>
      let frame := [device, WRITE_REG, 0x00, channel, data_hi, data_lo]
      .ok (frame ++ crc16 frame)

/-- The `build_relay_command` of raw_modbus_test.py lines 47-68 and
modbus_mqtt_bridge.py lines 89-110: identical frame, but the action token
is checked before the channel range. -/
def build_relay_command_cli (device channel : Nat) (action : String) :
    Except PyError (List Nat) :=
  match (if action = "on" then some (0x01, 0x00)
         else if action = "off" then some (0x02, 0x00)
         else none) with
  | none => .error .valueErrorAction
  | some (data_hi, data_lo) =>
    if 8 < channel ∨ channel < 1 then .error .valueErrorChannel
    else
      let frame_wo_crc := [device, WRITE_REG, 0x00, channel, data_hi, data_lo]
      .ok (frame_wo_crc ++ crc16 frame_wo_crc)

/-- The `build_read_input` of modbus_mqtt_bridge_json.py lines 68-78
(identical in the other two files): register address `0x0080 + input_num`,
split into high and low bytes, no channel validation anywhere. -/
def build_read_input (device input_num : Nat) : List Nat :=
  let addr := 0x0080 + input_num
  let frame := [device, READ_REG, (addr >>> 8) &&& 0xFF, addr &&& 0xFF, 0x00, 0x01]
  frame ++ crc16 frame

/-- The `build_read_output` of modbus_mqtt_bridge_json.py lines 80-89:
register address bytes are the literals `0x00` and `output_num`. -/
def build_read_output (device output_num : Nat) : List Nat :=
  let frame := [device, READ_REG, 0x00, output_num, 0x00, 0x01]
  frame ++ crc16 frame

/-- The `builst_read_output` of the interactive CLI raw_modbus_test.py
lines 84-95: register address `output_num + 1`, split into bytes. -/
def builst_read_output (device output_num : Nat) : List Nat :=
  let addr := output_num + 1
  let frame := [device, READ_REG, (addr >>> 8) &&& 0xFF, addr &&& 0xFF, 0x00, 0x01]
  frame ++ crc16 frame

/-- The `builst_read_output` of the textual MQTT bridge
modbus_mqtt_bridge.py lines 126-137: register address `output_num` with no
offset, split into bytes. -/
def builst_read_output_txt (device output_num : Nat) : List Nat :=
  let addr := output_num
  let frame := [device, READ_REG, (addr >>> 8) &&& 0xFF, addr &&& 0xFF, 0x00, 0x01]
  frame ++ crc16 frame

/-- Python list subscript `l[i]` for a non-negative index: the value when
in range, `IndexError` otherwise. -/
def py_index (l : List Nat) (i : Nat) : Except PyError Nat :=
  match l.get? i with
  | some v => .ok v
  | none => .error .indexError

/-- The read decode of the JSON bridge, modelling the expression
`"on" if resp and resp[4] == 1 else "off"` of modbus_mqtt_bridge_json.py
line 164 (and line 187): an empty buffer is falsy and yields `off`
directly; a non-empty buffer evaluates `resp[4]`, which raises
`IndexError` when the buffer is shorter than 5 bytes. -/
def decode_input_json (resp : List Nat) : Except PyError String :=
  if resp = [] then .ok "off"
  else
    match py_index resp 4 with
    | .error e => .error e
    | .ok v => .ok (if v = 1 then "on" else "off")

/-- Decoded read outcome of the CLI and textual variants. -/
inductive ReadResult where
  | on
  | off
  | timeout
deriving DecidableEq

/-- The read decode of raw_modbus_test.py lines 170-178 (the `in` command)
and of its status loops (lines 186-211), identical in
modbus_mqtt_bridge.py: `size = len(resp)`, an empty buffer reports a
timeout, a non-empty buffer evaluates `resp[4]` (raising `IndexError` when
shorter than 5 bytes) and maps value 1 to on, anything else to off. -/
def decode_read_cli (resp : List Nat) : Except PyError ReadResult :=
  if 0 < resp.length then
    match py_index resp 4 with
    | .error e => .error e
    | .ok v => .ok (if v = 1 then .on else .off)
  else .ok .timeout

/-- Decoded write outcome of the textual variant. -/
inductive WriteResult where
  | acknowledged
  | timeout
deriving DecidableEq

/-- The write reporting of the batch write loops of modbus_mqtt_bridge.py
lines 181-184 and 194-197: a non-empty reply is recorded as a response, an
empty one as a timeout. -/
def decode_write_txt (resp : List Nat) : WriteResult :=
  if 0 < resp.length then .acknowledged else .timeout

/-- Pure per-channel value of the CLI status decode, defined for buffers
that are either empty or at least 5 bytes long. -/
def pure_decode_cli (resp : List Nat) : ReadResult :=
  if resp.length = 0 then .timeout
  else if resp.get? 4 = some 1 then .on else .off

/-- Pure per-channel value of the JSON status decode, defined for buffers
that are either empty or at least 5 bytes long. -/
def pure_decode_json (resp : List Nat) : String :=
  if resp = [] then "off"
  else if resp.get? 4 = some 1 then "on" else "off"

/-- The ascending channel sequence `range(1, 9)` of the batch loops. -/
def channels : List Nat := [1, 2, 3, 4, 5, 6, 7, 8]

/-- The status batch loop of raw_modbus_test.py lines 197-211 (and
equally lines 180-194), given the per-channel raw responses as a function:
each channel in turn is decoded and its result recorded; an uncaught
`IndexError` aborts the whole loop. -/
def run_status_cli (responses : Nat → List Nat) :
    List Nat → Except PyError (List (Nat × ReadResult))
  | [] => .ok []
  | ch :: rest =>
    match decode_read_cli (responses ch) with
    | .error e => .error e
    | .ok s =>
      match run_status_cli responses rest with
      | .error e => .error e
      | .ok tl => .ok ((ch, s) :: tl)

/-- The CLI status poll over channels 1..8. -/
def status_cli (responses : Nat → List Nat) :
    Except PyError (List (Nat × ReadResult)) :=
  run_status_cli responses channels

/-- The `status` command loop of modbus_mqtt_bridge_json.py lines 169-194,
given the per-channel raw responses as a function: each channel in turn is
decoded with the JSON read decode and appended to the `states` list; an
`IndexError` escapes to the outer handler and aborts the whole batch. -/
def run_status_json (responses : Nat → List Nat) :
    List Nat → Except PyError (List (Nat × String))
  | [] => .ok []
  | ch :: rest =>
    match decode_input_json (responses ch) with
    | .error e => .error e
    | .ok s =>
      match run_status_json responses rest with
      | .error e => .error e
      | .ok tl => .ok ((ch, s) :: tl)

/-- The JSON status poll over channels 1..8. -/
def status_json (responses : Nat → List Nat) :
    Except PyError (List (Nat × String)) :=
  run_status_json responses channels

/-- Synthetic batch responses for the scenario of spec section 8: channel 3
answers with an empty buffer, every other channel with a well-formed 5-byte
reply whose data byte is 1. -/
def resp_ch3_empty (i : Nat) : List Nat :=
  if i = 3 then [] else [1, 3, 2, 0, 1]

/-- Batch responses where no channel answers. -/
def respAllEmpty (_ : Nat) : List Nat := []

theorem decode_read_cli_ok (resp : List Nat) (h : resp = [] ∨ 4 < resp.length) :
    decode_read_cli resp = .ok (pure_decode_cli resp) := by
  rcases h with h | h
  · subst h; rfl
  · cases hv : resp[4]? with
    | none =>
      rw [List.getElem?_eq_none_iff] at hv
      omega
    | some v =>
      have h0 : 0 < resp.length := by omega
      have h0' : ¬ resp.length = 0 := by omega
      simp [decode_read_cli, py_index, pure_decode_cli, hv, h0, h0']

theorem decode_input_json_ok (resp : List Nat) (h : resp = [] ∨ 4 < resp.length) :
    decode_input_json resp = .ok (pure_decode_json resp) := by
  rcases h with h | h
  · subst h; rfl
  · cases hv : resp[4]? with
    | none =>
      rw [List.getElem?_eq_none_iff] at hv
      omega
    | some v =>
      have hne : ¬ resp = [] := by
        intro e
        subst e
        simp at h
      simp [decode_input_json, py_index, pure_decode_json, hv, hne]

theorem run_status_cli_ok (responses : Nat → List Nat) (l : List Nat)
    (h : ∀ ch ∈ l, responses ch = [] ∨ 4 < (responses ch).length) :
    run_status_cli responses l =
      .ok (l.map fun ch => (ch, pure_decode_cli (responses ch))) := by
  induction l with
  | nil => rfl
  | cons ch rest ih =>
    have hd := decode_read_cli_ok (responses ch) (h ch (by simp))
    have ht := ih (fun c hc => h c (by simp [hc]))
    simp [run_status_cli, hd, ht]

theorem run_status_json_ok (responses : Nat → List Nat) (l : List Nat)
    (h : ∀ ch ∈ l, responses ch = [] ∨ 4 < (responses ch).length) :
    run_status_json responses l =
      .ok (l.map fun ch => (ch, pure_decode_json (responses ch))) := by
  induction l with
  | nil => rfl
  | cons ch rest ih =>
    have hd := decode_input_json_ok (responses ch) (h ch (by simp))
    have ht := ih (fun c hc => h c (by simp [hc]))
    simp [run_status_json, hd, ht]

/-- C1: `crc16` implements the Modbus CRC16 (polynomial 0xA001, initial
register 0xFFFF, 8 LSB-first iterations per input byte) and returns the
checksum register as 2 little-endian bytes; on the body bytes
01 06 00 01 01 00 it returns D9 9A, on 01 06 00 01 02 00 it returns D9 6A,
and on 01 03 00 01 00 01 it returns D5 CA. -/
theorem crc16_modbus_reference_vectors :
    crc16 [0x01, 0x06, 0x00, 0x01, 0x01, 0x00] = [0xD9, 0x9A]
    ∧ crc16 [0x01, 0x06, 0x00, 0x01, 0x02, 0x00] = [0xD9, 0x6A]
    ∧ crc16 [0x01, 0x03, 0x00, 0x01, 0x00, 0x01] = [0xD5, 0xCA]
    ∧ ∀ data : List Nat,
        crc16 data = [crcRegister data % 256, crcRegister data / 256 % 256] := by
  set_option maxRecDepth 100000 in
  exact ⟨by decide, by decide, by decide, fun data => crc16_eq_le_bytes data⟩

/-- C10: for every input byte sequence `crc16` terminates and returns
exactly 2 bytes: the internal CRC register stays below 2^16 after every
bit step and every byte step, so the final little-endian 2-byte
conversion (Python `to_bytes(2, little)`) cannot fail. -/
theorem crc16_total_two_bytes (data : List Nat) (h : ∀ b ∈ data, b < 256) :
    crcRegister data < 65536
    ∧ to_bytes_le_checked 2 (crcRegister data) = some (crc16 data)
    ∧ (crc16 data).length = 2
    ∧ (∀ crc, crc < 65536 → crc_bit_step crc < 65536)
    ∧ (∀ crc byte, crc < 65536 → byte < 256 → crc_byte_step crc byte < 65536) := by
  have hreg := crcRegister_lt data h
  have h2 : (256 : Nat) ^ 2 = 65536 := by norm_num
  refine ⟨hreg, ?_, crc16_length data, crc_bit_step_lt, crc_byte_step_lt⟩
  unfold to_bytes_le_checked
  rw [if_pos (by omega)]
  rfl

/-- Witness for C10 at the concrete byte sequence 01 FF 00. -/
theorem crc16_total_two_bytes_witness :
    (∀ b ∈ [0x01, 0xFF, 0x00], b < 256)
    ∧ (crcRegister [0x01, 0xFF, 0x00] < 65536
       ∧ to_bytes_le_checked 2 (crcRegister [0x01, 0xFF, 0x00])
           = some (crc16 [0x01, 0xFF, 0x00])
       ∧ (crc16 [0x01, 0xFF, 0x00]).length = 2
       ∧ (∀ crc, crc < 65536 → crc_bit_step crc < 65536)
       ∧ (∀ crc byte, crc < 65536 → byte < 256 → crc_byte_step crc byte < 65536)) :=
  ⟨by decide, crc16_total_two_bytes [0x01, 0xFF, 0x00] (by decide)⟩

/-- C4 counterexample: a 3-byte read response is not decoded to a
Malformed value; evaluating the decode expression accesses offset 4 out of
bounds and raises `IndexError` in both the JSON bridge (caught by the
outer handler of `process_command`) and the CLI (uncaught). -/
theorem short_read_response_raises_cex :
    decode_input_json [1, 2, 3] = .error PyError.indexError
    ∧ decode_read_cli [1, 2, 3] = .error PyError.indexError :=
  ⟨rfl, rfl⟩

/-- C4 (amended): for every raw read response of length at least 1 and
fewer than 5 bytes, both read decoders hit the out-of-bounds subscript
`resp[4]` and raise `IndexError`; no Malformed value is produced. -/
theorem short_read_response_index_error (resp : List Nat)
    (h1 : 1 ≤ resp.length) (h2 : resp.length < 5) :
    decode_input_json resp = .error PyError.indexError
    ∧ decode_read_cli resp = .error PyError.indexError := by
  have hv : resp[4]? = none := List.getElem?_eq_none (by omega)
  have hne : ¬ resp = [] := by
    intro e
    subst e
    simp at h1
  have h0 : 0 < resp.length := by omega
  constructor
  · simp [decode_input_json, py_index, hne, hv]
  · simp [decode_read_cli, py_index, h0, hv]

/-- Witness for the amended C4 at the 1-byte response 07. -/
theorem short_read_response_index_error_witness :
    1 ≤ ([7] : List Nat).length ∧ ([7] : List Nat).length < 5
    ∧ (decode_input_json [7] = .error PyError.indexError
       ∧ decode_read_cli [7] = .error PyError.indexError) :=
  ⟨by decide, by decide,
    short_read_response_index_error [7] (by decide) (by decide)⟩

/-- C5 counterexample: in the JSON bridge the decode of an empty raw read
buffer is the value off, not a Timeout tag. -/
theorem empty_read_json_decodes_off_cex :
    decode_input_json [] = .ok "off" := rfl

/-- C5 (amended): the interactive CLI read decode maps an empty buffer to
Timeout, and the textual MQTT batch-write reporting records Timeout for an
empty reply; the JSON bridge however decodes an empty read buffer as Off. -/
theorem empty_response_decode_results :
    decode_read_cli [] = .ok ReadResult.timeout
    ∧ decode_write_txt [] = WriteResult.timeout
    ∧ decode_input_json [] = .ok "off" :=
  ⟨rfl, rfl, rfl⟩

set_option maxRecDepth 100000

/-- C2: for every device in [1,247], channel in [1,8] and action in
{on, off}, `build_relay_command` (both the JSON variant and the CLI and
textual variant) returns the same frame of exactly 8 bytes with byte0 =
device, byte1 = 0x06, byte2 = 0x00, byte3 = channel, bytes 4-5 encoding
the action, and bytes 6-7 equal to the CRC16 of bytes 0-5; in particular
at (1, 1, on) the frame is exactly 01 06 00 01 01 00 D9 9A. -/
theorem build_relay_command_frame_spec (device channel : Nat) (action : String)
    (hd1 : 1 ≤ device) (hd2 : device ≤ 247)
    (hc1 : 1 ≤ channel) (hc2 : channel ≤ 8)
    (ha : action = "on" ∨ action = "off") :
    ∃ frame : List Nat,
      build_relay_command device channel action = .ok frame
      ∧ build_relay_command_cli device channel action = .ok frame
      ∧ frame.length = 8
      ∧ frame.get? 0 = some device
      ∧ frame.get? 1 = some 0x06
      ∧ frame.get? 2 = some 0x00
      ∧ frame.get? 3 = some channel
      ∧ (action = "on" → frame.get? 4 = some 0x01 ∧ frame.get? 5 = some 0x00)
      ∧ (action = "off" → frame.get? 4 = some 0x02 ∧ frame.get? 5 = some 0x00)
      ∧ frame.drop 6 = crc16 (frame.take 6)
      ∧ build_relay_command 1 1 "on"
          = .ok [0x01, 0x06, 0x00, 0x01, 0x01, 0x00, 0xD9, 0x9A] := by
  have hnc : ¬ (channel < 1 ∨ 8 < channel) := by omega
  have hnc' : ¬ (8 < channel ∨ channel < 1) := by omega
  have hvec : build_relay_command 1 1 "on"
      = .ok [0x01, 0x06, 0x00, 0x01, 0x01, 0x00, 0xD9, 0x9A] := by
    have h99 : crc16 [1, 6, 0, 1, 1, 0] = [0xD9, 0x9A] := by decide
    simp [build_relay_command, WRITE_REG, h99]
  rcases ha with ha | ha <;> subst ha
  · refine ⟨[device, 6, 0, channel, 1, 0] ++ crc16 [device, 6, 0, channel, 1, 0],
      ?_, ?_, ?_, rfl, rfl, rfl, rfl, fun _ => ⟨rfl, rfl⟩, ?_, rfl, hvec⟩
    · simp [build_relay_command, WRITE_REG, hnc]
      omega
    · simp [build_relay_command_cli, WRITE_REG, hnc']
      omega
    · simp [List.length_append, crc16_length]
    · intro hcontra
      exact absurd hcontra (by decide)
  · refine ⟨[device, 6, 0, channel, 2, 0] ++ crc16 [device, 6, 0, channel, 2, 0],
      ?_, ?_, ?_, rfl, rfl, rfl, rfl, ?_, fun _ => ⟨rfl, rfl⟩, rfl, hvec⟩
    · simp [build_relay_command, WRITE_REG, hnc]
      omega
    · simp [build_relay_command_cli, WRITE_REG, hnc']
      omega
    · simp [List.length_append, crc16_length]
    · intro hcontra
      exact absurd hcontra (by decide)

/-- Witness for C2 at device 1, channel 1, action on. -/
theorem build_relay_command_frame_spec_witness :
    (1 ≤ 1 ∧ (1 : Nat) ≤ 247 ∧ 1 ≤ 1 ∧ (1 : Nat) ≤ 8
      ∧ ("on" = "on" ∨ "on" = "off"))
    ∧ ∃ frame : List Nat,
        build_relay_command 1 1 "on" = .ok frame
        ∧ build_relay_command_cli 1 1 "on" = .ok frame
        ∧ frame.length = 8
        ∧ frame.get? 0 = some 1
        ∧ frame.get? 1 = some 0x06
        ∧ frame.get? 2 = some 0x00
        ∧ frame.get? 3 = some 1
        ∧ ("on" = "on" → frame.get? 4 = some 0x01 ∧ frame.get? 5 = some 0x00)
        ∧ ("on" = "off" → frame.get? 4 = some 0x02 ∧ frame.get? 5 = some 0x00)
        ∧ frame.drop 6 = crc16 (frame.take 6)
        ∧ build_relay_command 1 1 "on"
            = .ok [0x01, 0x06, 0x00, 0x01, 0x01, 0x00, 0xD9, 0x9A] :=
  ⟨⟨le_refl 1, by decide, le_refl 1, by decide, Or.inl rfl⟩,
    build_relay_command_frame_spec 1 1 "on" (le_refl 1) (by decide)
      (le_refl 1) (by decide) (Or.inl rfl)⟩

/-- C3: the output-status builders of the JSON bridge and of the
interactive CLI build the same frame except for the register address:
function code 0x03 and payload (0x00, 0x01) in both, byte3 = ch in the
JSON variant and byte3 = ch + 1 in the CLI variant; the textual MQTT
variant agrees with the JSON variant byte for byte. -/
theorem read_output_variant_addresses (device ch : Nat)
    (h1 : 1 ≤ ch) (h2 : ch ≤ 8) :
    build_read_output device ch
      = [device, 0x03, 0x00, ch, 0x00, 0x01]
          ++ crc16 [device, 0x03, 0x00, ch, 0x00, 0x01]
    ∧ builst_read_output device ch
      = [device, 0x03, 0x00, ch + 1, 0x00, 0x01]
          ++ crc16 [device, 0x03, 0x00, ch + 1, 0x00, 0x01]
    ∧ builst_read_output_txt device ch = build_read_output device ch := by
  interval_cases ch <;> exact ⟨rfl, rfl, rfl⟩

/-- Witness for C3 at device 1, channel 1. -/
theorem read_output_variant_addresses_witness :
    (1 ≤ 1 ∧ (1 : Nat) ≤ 8)
    ∧ (build_read_output 1 1
        = [1, 0x03, 0x00, 1, 0x00, 0x01] ++ crc16 [1, 0x03, 0x00, 1, 0x00, 0x01]
       ∧ builst_read_output 1 1
        = [1, 0x03, 0x00, 2, 0x00, 0x01] ++ crc16 [1, 0x03, 0x00, 2, 0x00, 0x01]
       ∧ builst_read_output_txt 1 1 = build_read_output 1 1) :=
  ⟨⟨le_refl 1, by decide⟩,
    read_output_variant_addresses 1 1 (le_refl 1) (by decide)⟩

/-- C6 counterexample: for the out-of-range channel 9, `build_read_input`
does not fail with any error; it builds and returns a full 8-byte frame
for register 0x0089. -/
theorem read_input_out_of_range_builds_frame_cex :
    build_read_input 1 9
      = [1, 0x03, 0x00, 0x89, 0x00, 0x01] ++ crc16 [1, 0x03, 0x00, 0x89, 0x00, 0x01]
    ∧ (build_read_input 1 9).length = 8 :=
  ⟨rfl, rfl⟩

/-- C6 (amended): `build_read_input` performs no channel validation and
returns an 8-byte frame for every channel number; for channel in [1,8]
the frame has function code 0x03, register address 0x0080 + ch (bytes
0x00 and 0x80 + ch) and payload (0x00, 0x01). -/
theorem build_read_input_no_validation (device ch : Nat)
    (h1 : 1 ≤ ch) (h2 : ch ≤ 8) :
    (∀ c : Nat, (build_read_input device c).length = 8)
    ∧ build_read_input device ch
        = [device, 0x03, 0x00, 0x80 + ch, 0x00, 0x01]
            ++ crc16 [device, 0x03, 0x00, 0x80 + ch, 0x00, 0x01] := by
  constructor
  · intro c
    simp [build_read_input, List.length_append, crc16_length]
  · interval_cases ch <;> rfl

/-- Witness for the amended C6 at device 1, channel 1. -/
theorem build_read_input_no_validation_witness :
    (1 ≤ 1 ∧ (1 : Nat) ≤ 8)
    ∧ ((∀ c : Nat, (build_read_input 1 c).length = 8)
       ∧ build_read_input 1 1
          = [1, 0x03, 0x00, 0x81, 0x00, 0x01] ++ crc16 [1, 0x03, 0x00, 0x81, 0x00, 0x01]) :=
  ⟨⟨le_refl 1, by decide⟩,
    build_read_input_no_validation 1 1 (le_refl 1) (by decide)⟩

/-- C7 counterexample: in the CLI and textual variant the action token is
validated before the channel, so channel 0 with an unknown action fails
with the action error, not with the channel error the claim requires. -/
theorem relay_cli_invalid_action_first_cex :
    build_relay_command_cli 1 0 "x" = .error PyError.valueErrorAction
    ∧ ¬ build_relay_command_cli 1 0 "x" = .error PyError.valueErrorChannel := by
  constructor
  · rfl
  · intro hcontra
    simp [build_relay_command_cli] at hcontra

/-- C7 (amended): for every channel outside [1,8] no variant of
`build_relay_command` produces a frame: the JSON variant fails with the
channel error for every action, and the CLI and textual variant fails with
the channel error when the action is on or off and with the action error
otherwise. -/
theorem relay_invalid_channel_errors (device channel : Nat) (action : String)
    (h : channel < 1 ∨ 8 < channel) :
    build_relay_command device channel action = .error PyError.valueErrorChannel
    ∧ (action = "on" ∨ action = "off" →
        build_relay_command_cli device channel action = .error PyError.valueErrorChannel)
    ∧ ((¬ action = "on") → (¬ action = "off") →
        build_relay_command_cli device channel action = .error PyError.valueErrorAction) := by
  have h' : 8 < channel ∨ channel < 1 := by omega
  refine ⟨?_, ?_, ?_⟩
  · simp [build_relay_command, h]
    intro h1 h2
    exfalso
    omega
  · rintro (ha | ha) <;> subst ha <;> simp [build_relay_command_cli, h'] <;> omega
  · intro ha1 ha2
    simp [build_relay_command_cli, ha1, ha2]

/-- Witness for the amended C7 at device 1, channel 0, action on. -/
theorem relay_invalid_channel_errors_witness :
    ((0 : Nat) < 1 ∨ 8 < (0 : Nat))
    ∧ (build_relay_command 1 0 "on" = .error PyError.valueErrorChannel
       ∧ ("on" = "on" ∨ "on" = "off" →
           build_relay_command_cli 1 0 "on" = .error PyError.valueErrorChannel)
       ∧ ((¬ "on" = "on") → (¬ "on" = "off") →
           build_relay_command_cli 1 0 "on" = .error PyError.valueErrorAction)) :=
  ⟨Or.inl (by decide), relay_invalid_channel_errors 1 0 "on" (Or.inl (by decide))⟩

/-- C8 counterexample: in the JSON bridge the status batch with an empty
reply on channel 3 and well-formed 5-byte replies elsewhere does run all
8 channels in order and keeps one slot per channel, but slot index 2 (for
channel 3) is recorded as off, not as a Timeout tag; the CLI variant
records timeout for the same slot. -/
theorem status_json_empty_slot_off_cex :
    status_json resp_ch3_empty
      = .ok [(1, "on"), (2, "on"), (3, "off"), (4, "on"),
             (5, "on"), (6, "on"), (7, "on"), (8, "on")]
    ∧ status_cli resp_ch3_empty
      = .ok [(1, ReadResult.on), (2, ReadResult.on), (3, ReadResult.timeout),
             (4, ReadResult.on), (5, ReadResult.on), (6, ReadResult.on),
             (7, ReadResult.on), (8, ReadResult.on)] :=
  ⟨rfl, rfl⟩

/-- C8 (amended): given per-channel responses that are each either empty
or at least 5 bytes, both status batch loops poll channels 1 through 8 in
ascending order, never abort on an empty response, and accumulate exactly
one result per channel into an ordered sequence of length 8; an empty
response is recorded as Timeout in the CLI and textual variant but as off
in the JSON variant. -/
theorem status_batch_sequencer (responses : Nat → List Nat)
    (h : ∀ ch, 1 ≤ ch → ch ≤ 8 → responses ch = [] ∨ 4 < (responses ch).length) :
    status_cli responses
      = .ok (channels.map fun ch => (ch, pure_decode_cli (responses ch)))
    ∧ status_json responses
      = .ok (channels.map fun ch => (ch, pure_decode_json (responses ch)))
    ∧ (channels.map fun ch => (ch, pure_decode_cli (responses ch))).length = 8
    ∧ channels = [1, 2, 3, 4, 5, 6, 7, 8]
    ∧ (∀ resp : List Nat, resp = [] → pure_decode_cli resp = ReadResult.timeout)
    ∧ (∀ resp : List Nat, resp = [] → pure_decode_json resp = "off") := by
  have h' : ∀ ch ∈ channels, responses ch = [] ∨ 4 < (responses ch).length := by
    intro ch hch
    fin_cases hch <;> exact h _ (by norm_num) (by norm_num)
  refine ⟨run_status_cli_ok responses channels h',
    run_status_json_ok responses channels h', rfl, rfl, ?_, ?_⟩
  · intro resp he
    subst he
    rfl
  · intro resp he
    subst he
    rfl

/-- Witness for the amended C8 with no channel answering. -/
theorem status_batch_sequencer_witness :
    (∀ ch, 1 ≤ ch → ch ≤ 8 → respAllEmpty ch = [] ∨ 4 < (respAllEmpty ch).length)
    ∧ (status_cli respAllEmpty
        = .ok (channels.map fun ch => (ch, pure_decode_cli (respAllEmpty ch)))
       ∧ status_json respAllEmpty
        = .ok (channels.map fun ch => (ch, pure_decode_json (respAllEmpty ch)))
       ∧ (channels.map fun ch => (ch, pure_decode_cli (respAllEmpty ch))).length = 8
       ∧ channels = [1, 2, 3, 4, 5, 6, 7, 8]
       ∧ (∀ resp : List Nat, resp = [] → pure_decode_cli resp = ReadResult.timeout)
       ∧ (∀ resp : List Nat, resp = [] → pure_decode_json resp = "off")) :=
  ⟨fun _ _ _ => Or.inl rfl,
    status_batch_sequencer respAllEmpty (fun _ _ _ => Or.inl rfl)⟩

/-- C9: for every raw response of length at least 5, the read decode
interprets the byte at offset 4: value 1 yields on and any other value
yields off, in the JSON bridge as well as in the CLI and textual variant;
in particular the 5-byte response 01 03 02 00 01 decodes to on and
01 03 02 00 00 decodes to off. -/
theorem read_decode_interprets_byte4 (resp : List Nat) (h : 4 < resp.length) :
    decode_input_json resp = .ok (if resp.get? 4 = some 1 then "on" else "off")
    ∧ decode_read_cli resp
        = .ok (if resp.get? 4 = some 1 then ReadResult.on else ReadResult.off)
    ∧ decode_input_json [1, 3, 2, 0, 1] = .ok "on"
    ∧ decode_input_json [1, 3, 2, 0, 0] = .ok "off"
    ∧ decode_read_cli [1, 3, 2, 0, 1] = .ok ReadResult.on
    ∧ decode_read_cli [1, 3, 2, 0, 0] = .ok ReadResult.off := by
  have hj := decode_input_json_ok resp (Or.inr h)
  have hc := decode_read_cli_ok resp (Or.inr h)
  have hne : ¬ resp = [] := by
    intro e
    subst e
    simp at h
  have h0 : ¬ resp.length = 0 := by omega
  refine ⟨?_, ?_, rfl, rfl, rfl, rfl⟩
  · rw [hj]
    simp [pure_decode_json, hne]
  · rw [hc]
    simp [pure_decode_cli, h0]

/-- Witness for C9 at the 5-byte response 01 03 02 00 01. -/
theorem read_decode_interprets_byte4_witness :
    4 < ([1, 3, 2, 0, 1] : List Nat).length
    ∧ (decode_input_json [1, 3, 2, 0, 1]
        = .ok (if ([1, 3, 2, 0, 1] : List Nat).get? 4 = some 1 then "on" else "off")
       ∧ decode_read_cli [1, 3, 2, 0, 1]
        = .ok (if ([1, 3, 2, 0, 1] : List Nat).get? 4 = some 1
               then ReadResult.on else ReadResult.off)
       ∧ decode_input_json [1, 3, 2, 0, 1] = .ok "on"
       ∧ decode_input_json [1, 3, 2, 0, 0] = .ok "off"
       ∧ decode_read_cli [1, 3, 2, 0, 1] = .ok ReadResult.on
       ∧ decode_read_cli [1, 3, 2, 0, 0] = .ok ReadResult.off) :=
  ⟨by decide, read_decode_interprets_byte4 [1, 3, 2, 0, 1] (by decide)⟩

end ModbusMqtt
